import Mathlib

/-!
Shallow embedding of `cloudflare-r2-rs` (src/lib.rs): the typestate
configuration builder `R2ManagerBuilder` and the storage client
`CloudFlareR2` with its operations (create/delete bucket, put/get/delete
object, list_keys pagination loop, download_file).  Network sends and the
local filesystem are modelled explicitly: every operation takes the
service's response behaviour as a function argument, and `download_file`
threads a filesystem state.
-/

/-- Typestate marker for one builder field: the Rust code uses a pair of
phantom types (`EmptyUrl`/`WithUrl`, `EmptyBucket`/`WithBucket`, ...) per
field; each such pair is one two-valued state here. -/
inductive FieldState where
  | empty
  | withField
deriving DecidableEq, Repr

/-- `R2ManagerBuilder<UrlState, BucketState, ClientIdState, SecretState>`:
four optional string fields plus four phantom typestate indices
(src/lib.rs lines 28-37). -/
structure R2ManagerBuilder (us bs cs ss : FieldState) where
  bucket_name : Option String
  url : Option String
  client_id : Option String
  secret_key : Option String
deriving DecidableEq, Repr

/-- `R2ManagerBuilder::new` (src/lib.rs lines 39-52): all fields `None`,
all typestate markers empty. -/
def R2ManagerBuilder.new :
    R2ManagerBuilder .empty .empty .empty .empty :=
  { bucket_name := none, url := none, client_id := none, secret_key := none }

/-- Setter `R2ManagerBuilder::url` (src/lib.rs lines 56-67): stores the
value and moves the url marker to present, keeping the other fields. -/
def R2ManagerBuilder.setUrl {us bs cs ss : FieldState}
    (b : R2ManagerBuilder us bs cs ss) (uri : String) :
    R2ManagerBuilder .withField bs cs ss :=
  { url := some uri, bucket_name := b.bucket_name,
    client_id := b.client_id, secret_key := b.secret_key }

/-- Setter `R2ManagerBuilder::bucket_name` (src/lib.rs lines 68-79). -/
def R2ManagerBuilder.setBucketName {us bs cs ss : FieldState}
    (b : R2ManagerBuilder us bs cs ss) (name : String) :
    R2ManagerBuilder us .withField cs ss :=
  { bucket_name := some name, url := b.url,
    client_id := b.client_id, secret_key := b.secret_key }

/-- Setter `R2ManagerBuilder::client_id` (src/lib.rs lines 80-91). -/
def R2ManagerBuilder.setClientId {us bs cs ss : FieldState}
    (b : R2ManagerBuilder us bs cs ss) (cid : String) :
    R2ManagerBuilder us bs .withField ss :=
  { client_id := some cid, bucket_name := b.bucket_name,
    url := b.url, secret_key := b.secret_key }

/-- Setter `R2ManagerBuilder::secret_key` (src/lib.rs lines 92-103). -/
def R2ManagerBuilder.setSecretKey {us bs cs ss : FieldState}
    (b : R2ManagerBuilder us bs cs ss) (secret : String) :
    R2ManagerBuilder us bs cs .withField :=
  { secret_key := some secret, bucket_name := b.bucket_name,
    url := b.url, client_id := b.client_id }

/-- `Credentials::new(client_id, secret_key, None, None, "custom_provider")`
as used in `build` (src/lib.rs lines 113-119). -/
structure Credentials where
  client_id : String
  secret_key : String
  provider_name : String
deriving DecidableEq, Repr

/-- The SDK client configuration assembled by `build` (src/lib.rs lines
121-127): region, endpoint url and credentials. -/
structure ClientConf where
  region : String
  endpoint_url : String
  credentials : Credentials
deriving DecidableEq, Repr

/-- `CloudFlareR2` (src/lib.rs lines 136-139): bucket name plus the shared
client handle (modelled by its configuration). -/
structure CloudFlareR2 where
  bucket_name : String
  client : ClientConf
deriving DecidableEq, Repr

/-- `R2ManagerBuilder::build` (src/lib.rs lines 106-134): defined only at
the all-present typestate; unwraps the four options in source order
(bucket name, url, client id, secret key), erroring with the source's
message when one is `None`, then assembles the client. -/
def R2ManagerBuilder.build
    (b : R2ManagerBuilder .withField .withField .withField .withField) :
    Except String CloudFlareR2 :=
  match b.bucket_name with
  | none => .error "Bucket name is required"
  | some bucket_name =>
    match b.url with
    | none => .error "Cloudflare URL is required"
    | some url =>
      match b.client_id with
      | none => .error "Cloudflare R2 client ID is required"
      | some client_id =>
        match b.secret_key with
        | none => .error "Cloudflare R2 secret key is required"
        | some secret_key =>
          .ok { bucket_name := bucket_name,
                client := { region := "us-east-1",
                            endpoint_url := url,
                            credentials := { client_id := client_id,
                                             secret_key := secret_key,
                                             provider_name := "custom_provider" } } }

/-- Builders reachable through the public surface: start from
`R2ManagerBuilder::new` and apply setters.  In the Rust code this is the
only way to obtain a builder value, since the struct fields are private. -/
inductive Reachable :
    ∀ {us bs cs ss : FieldState}, R2ManagerBuilder us bs cs ss → Prop where
  | new : Reachable R2ManagerBuilder.new
  | setUrl {us bs cs ss : FieldState} {b : R2ManagerBuilder us bs cs ss}
      (uri : String) : Reachable b → Reachable (b.setUrl uri)
  | setBucketName {us bs cs ss : FieldState} {b : R2ManagerBuilder us bs cs ss}
      (name : String) : Reachable b → Reachable (b.setBucketName name)
  | setClientId {us bs cs ss : FieldState} {b : R2ManagerBuilder us bs cs ss}
      (cid : String) : Reachable b → Reachable (b.setClientId cid)
  | setSecretKey {us bs cs ss : FieldState} {b : R2ManagerBuilder us bs cs ss}
      (secret : String) : Reachable b → Reachable (b.setSecretKey secret)

/-- Opaque error produced by the wrapped SDK on a failed request; the
wrapper never inspects it, only propagates it. -/
structure SdkError where
  message : String
deriving DecidableEq, Repr

/-- The `anyhow::Error` values the wrapper surfaces: either a message
created with `anyhow!`/`bail!`, or a propagated SDK error (`?`). -/
inductive AnyhowError where
  | msg (s : String)
  | sdk (e : SdkError)
deriving DecidableEq, Repr

/-- A `list_objects_v2` request: bucket plus optional continuation token
(src/lib.rs lines 248-251). -/
structure ListObjectsV2Request where
  bucket : String
  continuation_token : Option String
deriving DecidableEq, Repr

/-- One object entry of a listing page; the SDK models the key as
optional. -/
structure S3Object where
  key : Option String
deriving DecidableEq, Repr

/-- A `list_objects_v2` response page as read by `list_keys`: optional
contents, optional truncation flag, optional next continuation token. -/
structure ListObjectsV2Output where
  contents : Option (List S3Object)
  is_truncated : Option Bool
  next_continuation_token : Option String
deriving DecidableEq, Repr

/-- The keys `list_keys` extracts from one page (src/lib.rs lines
254-260): every present key of the page's contents, in order; absent
contents contribute nothing. -/
def pageKeys (out : ListObjectsV2Output) : List String :=
  (out.contents.getD []).filterMap (fun o => o.key)

/-- The `loop` of `CloudFlareR2::list_keys` (src/lib.rs lines 247-267),
made total with a fuel parameter: `none` means the fuel ran out while the
loop was still running (the Rust loop would still be iterating), `some r`
means the loop finished with result `r`.  Each iteration sends one
request carrying the current continuation token, propagates a send error
(`?`), appends the page's keys, and either loops with the response's next
continuation token (truncated) or stops returning the accumulated keys. -/
def CloudFlareR2.list_keysLoop (c : CloudFlareR2)
    (send : ListObjectsV2Request → Except SdkError ListObjectsV2Output) :
    Nat → Option String → List String →
      Option (Except AnyhowError (List String))
  | 0, _, _ => none
  | fuel + 1, continuation_token, keys =>
    match send { bucket := c.bucket_name,
                 continuation_token := continuation_token } with
    | .error e => some (.error (.sdk e))
    | .ok result =>
      if result.is_truncated.getD false then
        c.list_keysLoop send fuel result.next_continuation_token
          (keys ++ pageKeys result)
      else
        some (.ok (keys ++ pageKeys result))

/-- `CloudFlareR2::list_keys` (src/lib.rs lines 243-269): run the loop
starting with no continuation token and no accumulated keys. -/
def CloudFlareR2.list_keys (c : CloudFlareR2)
    (send : ListObjectsV2Request → Except SdkError ListObjectsV2Output)
    (fuel : Nat) : Option (Except AnyhowError (List String)) :=
  c.list_keysLoop send fuel none []

/-- Specification-level description of one complete successful listing
traversal starting at token `tok`: each request carries the previous
response's next continuation token, every page's keys are appended in
page order, and the traversal ends at the first page whose truncation
flag is unset or false. -/
inductive ListTrace (c : CloudFlareR2)
    (send : ListObjectsV2Request → Except SdkError ListObjectsV2Output) :
    Option String → List String → Prop where
  | last (tok : Option String) (out : ListObjectsV2Output) :
      send { bucket := c.bucket_name, continuation_token := tok } = .ok out →
      out.is_truncated.getD false = false →
      ListTrace c send tok (pageKeys out)
  | more (tok : Option String) (out : ListObjectsV2Output) (ks : List String) :
      send { bucket := c.bucket_name, continuation_token := tok } = .ok out →
      out.is_truncated.getD false = true →
      ListTrace c send out.next_continuation_token ks →
      ListTrace c send tok (pageKeys out ++ ks)

/-- Specification-level description of a listing traversal from token
`tok` that runs into a failing page request after finitely many truncated
pages. -/
inductive ListTraceErr (c : CloudFlareR2)
    (send : ListObjectsV2Request → Except SdkError ListObjectsV2Output) :
    Option String → SdkError → Prop where
  | here (tok : Option String) (e : SdkError) :
      send { bucket := c.bucket_name, continuation_token := tok } = .error e →
      ListTraceErr c send tok e
  | more (tok : Option String) (out : ListObjectsV2Output) (e : SdkError) :
      send { bucket := c.bucket_name, continuation_token := tok } = .ok out →
      out.is_truncated.getD false = true →
      ListTraceErr c send out.next_continuation_token e →
      ListTraceErr c send tok e

/-- A concrete client used to instantiate the claims' witnesses. -/
def exampleClient : CloudFlareR2 :=
  { bucket_name := "my-bucket",
    client := { region := "us-east-1",
                endpoint_url := "https://acct.r2.cloudflarestorage.com",
                credentials := { client_id := "id", secret_key := "key",
                                 provider_name := "custom_provider" } } }

/-- A concrete two-page service behaviour: the first request (no token)
returns a truncated page with keys a, b and next token t; the request
carrying token t returns a final page with key c. -/
def twoPageSend (r : ListObjectsV2Request) :
    Except SdkError ListObjectsV2Output :=
  match r.continuation_token with
  | none =>
    .ok { contents := some [{ key := some "a" }, { key := some "b" }],
          is_truncated := some true,
          next_continuation_token := some "t" }
  | some _ =>
    .ok { contents := some [{ key := some "c" }],
          is_truncated := some false,
          next_continuation_token := none }

/-- A service behaviour whose every page request fails. -/
def failSend (_ : ListObjectsV2Request) :
    Except SdkError ListObjectsV2Output :=
  .error { message := "boom" }

/-- A service behaviour returning a single page whose truncation flag is
absent. -/
def absentFlagSend (_ : ListObjectsV2Request) :
    Except SdkError ListObjectsV2Output :=
  .ok { contents := some [{ key := some "a" }],
        is_truncated := none,
        next_continuation_token := some "t" }

/-- A `delete_object` request (src/lib.rs lines 194-197). -/
structure DeleteObjectRequest where
  bucket : String
  key : String
deriving DecidableEq, Repr

/-- `CloudFlareR2::delete_object` (src/lib.rs lines 193-201): send the
request, propagate a send error (`?`), and on success return `true`. -/
def CloudFlareR2.delete_object (c : CloudFlareR2)
    (send : DeleteObjectRequest → Except SdkError Unit) (key : String) :
    Except AnyhowError Bool :=
  match send { bucket := c.bucket_name, key := key } with
  | .error e => .error (.sdk e)
  | .ok _ => .ok true

/-- Split a character list at every occurrence of a separator character,
keeping empty groups, as `str::split` does for one-character patterns. -/
def splitOnChar (sep : Char) : List Char → List (List Char)
  | [] => [[]]
  | c :: cs =>
    if c = sep then [] :: splitOnChar sep cs
    else
      match splitOnChar sep cs with
      | [] => [[c]]
      | group :: rest => (c :: group) :: rest

/-- Whether `s` ends with the given trailing string. -/
def strEndsWith (s tail : String) : Bool :=
  List.isSuffixOf tail.toList s.toList

/-- Rust `Path::file_name` on a key, as `mime_guess::from_path` sees it
when asking for the extension: the last component after path
normalization, which drops empty components (consecutive or trailing
separators, `"x.pdf/"` has file name `"x.pdf"`) and `.` components
(`"foo.txt/."` has file name `"foo.txt"`); `none` when no component
remains or the last component is `..`.  The empty string cannot survive
the filter, so it serves as the no-component sentinel. -/
def fileNameOf (key : String) : Option String :=
  match (((splitOnChar '/' key.toList).map String.mk).filter
      (fun s => s != "" && s != ".")).getLastD "" with
  | "" => none
  | ".." => none
  | name => some name

/-- Rust `Path::extension` on a key: the part of the file name after its
last dot; `none` when there is no file name, when the file name contains
no dot, or when its only dot is the leading character (a dotfile has no
extension). -/
def extensionOf (key : String) : Option String :=
  match fileNameOf key with
  | none => none
  | some name =>
    match splitOnChar '.' name.toList with
    | [] => none
    | [_] => none
    | [[], _] => none
    | parts => some (String.mk (parts.getLastD []))

/-- Modelled from the spec: the extension-to-MIME lookup of the external
`mime_guess` crate (not part of this repository), "a best-effort MIME
lookup"; restricted to representative lower-case entries, `none` for
unknown extensions. -/
def mimeFromExt (ext : String) : Option String :=
  match ext with
  | "pdf" => some "application/pdf"
  | "txt" => some "text/plain"
  | "html" => some "text/html"
  | "png" => some "image/png"
  | "jpg" => some "image/jpeg"
  | "json" => some "application/json"
  | _ => none

/-- `mime_guess::from_path`: guess by the path's extension. -/
def mime_guess.from_path (key : String) : Option String :=
  (extensionOf key).bind mimeFromExt

/-- `MimeGuess::first_or_octet_stream`: the guess, or the
`application/octet-stream` default when there is none. -/
def first_or_octet_stream (g : Option String) : String :=
  g.getD "application/octet-stream"

/-- The `put_object` request assembled in src/lib.rs lines 181-187:
bucket, key, body, and the content type guessed from the key. -/
structure PutObjectRequest where
  bucket : String
  key : String
  body : List Nat
  content_type : String
deriving DecidableEq, Repr

/-- The request value `CloudFlareR2::put_object` builds for its send
(src/lib.rs lines 181-187). -/
def CloudFlareR2.put_objectRequest (c : CloudFlareR2) (key : String)
    (body : List Nat) : PutObjectRequest :=
  { bucket := c.bucket_name, key := key, body := body,
    content_type := first_or_octet_stream (mime_guess.from_path key) }

/-- `CloudFlareR2::put_object` (src/lib.rs lines 180-191): send the
request, propagate a send error (`?`), and on success echo the key. -/
def CloudFlareR2.put_object (c : CloudFlareR2)
    (send : PutObjectRequest → Except SdkError Unit) (key : String)
    (body : List Nat) : Except AnyhowError String :=
  match send (c.put_objectRequest key body) with
  | .error e => .error (.sdk e)
  | .ok _ => .ok key

/-- A `create_bucket` request (src/lib.rs line 151). -/
structure CreateBucketRequest where
  bucket : String
deriving DecidableEq, Repr

/-- A `delete_bucket` request (src/lib.rs line 165). -/
structure DeleteBucketRequest where
  bucket : String
deriving DecidableEq, Repr

/-- `CloudFlareR2::create_bucket` (src/lib.rs lines 150-162): on any
failed response the result is the fixed bucket-operation error message;
logging is a side effect only. -/
def CloudFlareR2.create_bucket (c : CloudFlareR2)
    (send : CreateBucketRequest → Except SdkError Unit) :
    Except AnyhowError Unit :=
  match send { bucket := c.bucket_name } with
  | .ok _ => .ok ()
  | .error _ => .error (.msg "Failed to create bucket")

/-- `CloudFlareR2::delete_bucket` (src/lib.rs lines 164-178). -/
def CloudFlareR2.delete_bucket (c : CloudFlareR2)
    (send : DeleteBucketRequest → Except SdkError Unit) :
    Except AnyhowError Unit :=
  match send { bucket := c.bucket_name } with
  | .ok _ => .ok ()
  | .error _ => .error (.msg "Failed to delete bucket")

/-- A `get_object` request (src/lib.rs lines 204-207 and 225-228). -/
structure GetObjectRequest where
  bucket : String
  key : String
deriving DecidableEq, Repr

/-- A `get_object` response: its body as a byte stream, one entry per
chunk, each either a chunk of bytes or a stream error. -/
structure GetObjectResponse where
  body : List (Except SdkError (List Nat))
deriving Repr

/-- Concatenation of a byte stream, failing with the first chunk error:
this is both `response.body.collect()` in `get_object` (src/lib.rs line
209) and the `while let Some(bytes) = data.try_next().await?` drain in
`download_file` (src/lib.rs lines 235-237). -/
def collectBody :
    List (Except SdkError (List Nat)) → Except AnyhowError (List Nat)
  | [] => .ok []
  | .error e :: _ => .error (.sdk e)
  | .ok chunk :: rest =>
    match collectBody rest with
    | .error e => .error e
    | .ok bytes => .ok (chunk ++ bytes)

/-- `CloudFlareR2::get_object` (src/lib.rs lines 203-211): send the
request, propagate a send error, and collect the body stream. -/
def CloudFlareR2.get_object (c : CloudFlareR2)
    (send : GetObjectRequest → Except SdkError GetObjectResponse)
    (key : String) : Except AnyhowError (List Nat) :=
  match send { bucket := c.bucket_name, key := key } with
  | .error e => .error (.sdk e)
  | .ok response => collectBody response.body

/-- A filesystem path as its list of components. -/
abbrev FsPath := List String

/-- The local filesystem state touched by `download_file`: the existing
directories and the files with their contents. -/
structure FS where
  dirs : List FsPath
  files : List (FsPath × List Nat)
deriving DecidableEq, Repr

/-- `Path::is_dir`. -/
def FS.isDir (fs : FS) (p : FsPath) : Bool := fs.dirs.contains p

/-- Whether `p` is an existing regular file. -/
def FS.isFile (fs : FS) (p : FsPath) : Bool :=
  (fs.files.map Prod.fst).contains p

/-- `Path::exists`. -/
def FS.pathExists (fs : FS) (p : FsPath) : Bool :=
  fs.isDir p || fs.isFile p

/-- The content of the file at `p`, when one exists. -/
def FS.lookupFile (fs : FS) (p : FsPath) : Option (List Nat) :=
  (fs.files.find? (fun q => q.1 == p)).map Prod.snd

/-- Components of a key interpreted as a path; empty components
collapse. -/
def keyComponents (key : String) : List String :=
  ((splitOnChar '/' key.toList).map String.mk).filter (fun s => s != "")

/-- `dir.join(key)` (src/lib.rs line 218): a key beginning with a
separator is absolute and replaces the whole path (Rust `Path::join`
semantics), otherwise the key's components are appended to the
directory's. -/
def joinPath (dir : FsPath) (key : String) : FsPath :=
  if key.toList.head? = some '/' then keyComponents key
  else dir ++ keyComponents key

/-- `Path::parent` (src/lib.rs lines 219-221): none at the root (no
components), otherwise the path without its last component. -/
def parentPath (p : FsPath) : Option FsPath :=
  match p with
  | [] => none
  | _ => some p.dropLast

/-- Rendering of a component path, as the returned path string is built
(src/lib.rs line 240). -/
def pathToString (p : FsPath) : String := String.intercalate "/" p

/-- All ancestors of `p` (the root, every proper ancestor, and `p`). -/
def pathInits (p : FsPath) : List FsPath :=
  (List.range (p.length + 1)).map (fun n => p.take n)

/-- `std::fs::create_dir_all` (src/lib.rs line 223): fails when some
ancestor of the target is an existing regular file, otherwise records
every ancestor as a directory. -/
def FS.create_dir_all (fs : FS) (p : FsPath) : Except AnyhowError FS :=
  if (pathInits p).any fs.isFile then
    .error (.msg "create_dir_all failed")
  else
    .ok { fs with
          dirs := fs.dirs ++ (pathInits p).filter (fun q => !fs.dirs.contains q) }

/-- `File::create` (src/lib.rs line 232): fails when the target is an
existing directory, otherwise creates or truncates the file. -/
def FS.fileCreate (fs : FS) (p : FsPath) : Except AnyhowError FS :=
  if fs.isDir p then .error (.msg "File create failed")
  else .ok { fs with files := (p, []) :: fs.files.filter (fun q => q.1 != p) }

/-- Replace the content of the file at `p`: the net effect of the
buffered chunk writes plus flush (src/lib.rs lines 233-238). -/
def FS.writeFile (fs : FS) (p : FsPath) (content : List Nat) : FS :=
  { fs with files := (p, content) :: fs.files.filter (fun q => q.1 != p) }

/-- `CloudFlareR2::download_file` (src/lib.rs lines 213-241): bail when
the destination is not a directory; join the key onto it; fail when the
joined path has no parent; create missing parent directories; send the
`get_object` request; create the target file; write the stream's chunks
and flush; return the written path. -/
def CloudFlareR2.download_file (c : CloudFlareR2)
    (send : GetObjectRequest → Except SdkError GetObjectResponse)
    (fs : FS) (key : String) (dir : FsPath) :
    Except AnyhowError (FS × String) :=
  if !fs.isDir dir then
    .error (.msg ("Path " ++ pathToString dir ++ " is not a directory"))
  else
    match parentPath (joinPath dir key) with
    | none =>
      .error (.msg ("Invalid parent dir for " ++ pathToString (joinPath dir key)))
    | some parent_dir =>
      match (if !fs.pathExists parent_dir then fs.create_dir_all parent_dir
             else .ok fs) with
      | .error e => .error e
      | .ok fs1 =>
        match send { bucket := c.bucket_name, key := key } with
        | .error e => .error (.sdk e)
        | .ok result =>
          match fs1.fileCreate (joinPath dir key) with
          | .error e => .error e
          | .ok fs2 =>
            match collectBody result.body with
            | .error e => .error e
            | .ok bytes =>
              .ok (fs2.writeFile (joinPath dir key) bytes,
                   pathToString (joinPath dir key))

/-- A filesystem with a root and one directory tmp, no files. -/
def exampleFS : FS := { dirs := [[], ["tmp"]], files := [] }

/-- A service behaviour answering every get_object request with a
two-chunk byte stream. -/
def okStreamSend (_ : GetObjectRequest) :
    Except SdkError GetObjectResponse :=
  .ok { body := [.ok [1, 2], .ok [3]] }

/-- Typestate invariant: on every reachable builder, a present marker
means the corresponding option field is `some`. -/
theorem reachable_invariant {us bs cs ss : FieldState}
    {b : R2ManagerBuilder us bs cs ss} (h : Reachable b) :
    (us = .withField → b.url.isSome) ∧
    (bs = .withField → b.bucket_name.isSome) ∧
    (cs = .withField → b.client_id.isSome) ∧
    (ss = .withField → b.secret_key.isSome) := by
  induction h with
  | new =>
      refine ⟨?_, ?_, ?_, ?_⟩ <;> intro hc <;> cases hc
  | setUrl uri _ ih =>
      exact ⟨fun _ => rfl, ih.2.1, ih.2.2.1, ih.2.2.2⟩
  | setBucketName name _ ih =>
      exact ⟨ih.1, fun _ => rfl, ih.2.2.1, ih.2.2.2⟩
  | setClientId cid _ ih =>
      exact ⟨ih.1, ih.2.1, fun _ => rfl, ih.2.2.2⟩
  | setSecretKey secret _ ih =>
      exact ⟨ih.1, ih.2.1, ih.2.2.1, fun _ => rfl⟩

/-- C1: on the type-level builder, `build` is only defined at the
all-present typestate (incomplete builds are not expressible), and for
every reachable builder of that type it succeeds with a client: the
missing-field error branches are unreachable. -/
theorem c1_build_succeeds_on_complete_builder
    (b : R2ManagerBuilder .withField .withField .withField .withField)
    (h : Reachable b) :
    ∃ c : CloudFlareR2, b.build = Except.ok c := by
  obtain ⟨hu, hb, hc, hs⟩ := reachable_invariant h
  obtain ⟨url, hurl⟩ := Option.isSome_iff_exists.mp (hu rfl)
  obtain ⟨name, hname⟩ := Option.isSome_iff_exists.mp (hb rfl)
  obtain ⟨cid, hcid⟩ := Option.isSome_iff_exists.mp (hc rfl)
  obtain ⟨secret, hsecret⟩ := Option.isSome_iff_exists.mp (hs rfl)
  unfold R2ManagerBuilder.build
  rw [hname, hurl, hcid, hsecret]
  exact ⟨_, rfl⟩

/-- C1 witness: a concrete builder with the four setters applied once
each builds successfully. -/
theorem c1_build_succeeds_on_complete_builder_witness :
    ∃ c : CloudFlareR2,
      (((((R2ManagerBuilder.new).setUrl "https://acct.r2.cloudflarestorage.com").setBucketName
          "my-bucket").setClientId "id").setSecretKey "key").build = Except.ok c :=
  c1_build_succeeds_on_complete_builder _
    (Reachable.setSecretKey _ (Reachable.setClientId _
      (Reachable.setBucketName _ (Reachable.setUrl _ Reachable.new))))

/-- C7: calling the same setter twice keeps the last value: for every
builder state and values v1, v2, setting a field to v1 and then to v2
leaves v2 in that field, for each of the four setters. -/
theorem c7_setters_last_write_wins {us bs cs ss : FieldState}
    (b : R2ManagerBuilder us bs cs ss) (v1 v2 : String) :
    ((b.setUrl v1).setUrl v2).url = some v2 ∧
    ((b.setBucketName v1).setBucketName v2).bucket_name = some v2 ∧
    ((b.setClientId v1).setClientId v2).client_id = some v2 ∧
    ((b.setSecretKey v1).setSecretKey v2).secret_key = some v2 :=
  ⟨rfl, rfl, rfl, rfl⟩

/-- C8: each setter populates exactly its own field and leaves the other
three fields unchanged, for every builder state and input value. -/
theorem c8_setters_frame {us bs cs ss : FieldState}
    (b : R2ManagerBuilder us bs cs ss) (v : String) :
    ((b.setUrl v).url = some v ∧
      (b.setUrl v).bucket_name = b.bucket_name ∧
      (b.setUrl v).client_id = b.client_id ∧
      (b.setUrl v).secret_key = b.secret_key) ∧
    ((b.setBucketName v).bucket_name = some v ∧
      (b.setBucketName v).url = b.url ∧
      (b.setBucketName v).client_id = b.client_id ∧
      (b.setBucketName v).secret_key = b.secret_key) ∧
    ((b.setClientId v).client_id = some v ∧
      (b.setClientId v).bucket_name = b.bucket_name ∧
      (b.setClientId v).url = b.url ∧
      (b.setClientId v).secret_key = b.secret_key) ∧
    ((b.setSecretKey v).secret_key = some v ∧
      (b.setSecretKey v).bucket_name = b.bucket_name ∧
      (b.setSecretKey v).url = b.url ∧
      (b.setSecretKey v).client_id = b.client_id) :=
  ⟨⟨rfl, rfl, rfl, rfl⟩, ⟨rfl, rfl, rfl, rfl⟩,
   ⟨rfl, rfl, rfl, rfl⟩, ⟨rfl, rfl, rfl, rfl⟩⟩

/-- Soundness of the loop: a successful run from any intermediate state
is a traversal trace appended to the keys accumulated so far. -/
theorem list_keysLoop_ok_trace (c : CloudFlareR2)
    (send : ListObjectsV2Request → Except SdkError ListObjectsV2Output) :
    ∀ (fuel : Nat) (tok : Option String) (acc ks : List String),
      c.list_keysLoop send fuel tok acc = some (.ok ks) →
      ∃ ks', ListTrace c send tok ks' ∧ ks = acc ++ ks' := by
  intro fuel
  induction fuel with
  | zero => intro tok acc ks h; simp [CloudFlareR2.list_keysLoop] at h
  | succ n ih =>
    intro tok acc ks h
    unfold CloudFlareR2.list_keysLoop at h
    split at h
    next e hsend => simp at h
    next result hsend =>
      by_cases htr : result.is_truncated.getD false = true
      · rw [if_pos htr] at h
        obtain ⟨ks', htrace, hks⟩ := ih _ _ _ h
        exact ⟨pageKeys result ++ ks',
          ListTrace.more tok result ks' hsend htr htrace,
          by rw [hks, List.append_assoc]⟩
      · rw [if_neg htr] at h
        simp only [Option.some.injEq, Except.ok.injEq] at h
        exact ⟨pageKeys result,
          ListTrace.last tok result hsend (by simpa using htr), h.symm⟩

/-- Completeness of the loop: every traversal trace is produced by the
loop given enough fuel, from any intermediate accumulator. -/
theorem trace_list_keysLoop (c : CloudFlareR2)
    (send : ListObjectsV2Request → Except SdkError ListObjectsV2Output)
    {tok : Option String} {ks' : List String}
    (h : ListTrace c send tok ks') :
    ∀ acc : List String, ∃ fuel : Nat,
      c.list_keysLoop send fuel tok acc = some (.ok (acc ++ ks')) := by
  induction h with
  | last tok out hsend htr =>
    intro acc
    refine ⟨1, ?_⟩
    unfold CloudFlareR2.list_keysLoop
    rw [hsend]
    simp [htr]
  | more tok out ks hsend htr _ ih =>
    intro acc
    obtain ⟨n, hn⟩ := ih (acc ++ pageKeys out)
    refine ⟨n + 1, ?_⟩
    unfold CloudFlareR2.list_keysLoop
    rw [hsend]
    simp [htr, hn, List.append_assoc]

/-- C2: `list_keys` returns `ks` successfully (for some fuel) exactly
when `ks` is the key sequence of a complete traversal that starts with no
continuation token, threads each response's next continuation token into
the following request, appends each page's keys in page order, and stops
at the first page not marked truncated. -/
theorem c2_list_keys_pagination (c : CloudFlareR2)
    (send : ListObjectsV2Request → Except SdkError ListObjectsV2Output)
    (ks : List String) :
    (∃ fuel : Nat, c.list_keys send fuel = some (.ok ks)) ↔
      ListTrace c send none ks := by
  constructor
  · rintro ⟨fuel, h⟩
    obtain ⟨ks', htrace, hks⟩ := list_keysLoop_ok_trace c send fuel none [] ks h
    simpa [hks] using htrace
  · intro h
    obtain ⟨fuel, hfuel⟩ := trace_list_keysLoop c send h []
    exact ⟨fuel, by simpa [CloudFlareR2.list_keys] using hfuel⟩

/-- C2 witness: on the concrete two-page service the loop with fuel 2
succeeds with the keys of both pages in order, hence a traversal trace
exists. -/
theorem c2_list_keys_pagination_witness :
    ListTrace exampleClient twoPageSend none ["a", "b", "c"] :=
  (c2_list_keys_pagination exampleClient twoPageSend ["a", "b", "c"]).mp
    ⟨2, rfl⟩

/-- Error soundness of the loop: a failing run from any intermediate
state is a propagated SDK error reached after finitely many truncated
pages; no other error shape is possible. -/
theorem list_keysLoop_error_trace (c : CloudFlareR2)
    (send : ListObjectsV2Request → Except SdkError ListObjectsV2Output) :
    ∀ (fuel : Nat) (tok : Option String) (acc : List String)
      (x : AnyhowError),
      c.list_keysLoop send fuel tok acc = some (.error x) →
      ∃ e, x = .sdk e ∧ ListTraceErr c send tok e := by
  intro fuel
  induction fuel with
  | zero => intro tok acc x h; simp [CloudFlareR2.list_keysLoop] at h
  | succ n ih =>
    intro tok acc x h
    unfold CloudFlareR2.list_keysLoop at h
    split at h
    next e hsend =>
      simp only [Option.some.injEq, Except.error.injEq] at h
      exact ⟨e, h.symm, ListTraceErr.here tok e hsend⟩
    next result hsend =>
      by_cases htr : result.is_truncated.getD false = true
      · rw [if_pos htr] at h
        obtain ⟨e, hx, htrace⟩ := ih _ _ _ h
        exact ⟨e, hx, ListTraceErr.more tok result e hsend htr htrace⟩
      · rw [if_neg htr] at h
        simp at h

/-- C3: every finished `list_keys` run is either the complete key
sequence of one full traversal, or exactly one error, namely the SDK
error of the first failing page fetch; no partial key list is returned
as success. -/
theorem c3_list_keys_no_partial_success (c : CloudFlareR2)
    (send : ListObjectsV2Request → Except SdkError ListObjectsV2Output)
    (fuel : Nat) (r : Except AnyhowError (List String))
    (h : c.list_keys send fuel = some r) :
    (∃ ks, r = Except.ok ks ∧ ListTrace c send none ks) ∨
    (∃ e, r = Except.error (AnyhowError.sdk e) ∧
      ListTraceErr c send none e) := by
  cases r with
  | ok ks =>
    left
    obtain ⟨ks', htrace, hks⟩ := list_keysLoop_ok_trace c send fuel none [] ks h
    exact ⟨ks, rfl, by simpa [hks] using htrace⟩
  | error x =>
    right
    obtain ⟨e, hx, htrace⟩ := list_keysLoop_error_trace c send fuel none [] x h
    exact ⟨e, by rw [hx], htrace⟩

/-- C3 witness: on the always-failing service, `list_keys` finishes with
exactly the propagated SDK error of the first page fetch. -/
theorem c3_list_keys_no_partial_success_witness :
    (∃ ks, (Except.error (AnyhowError.sdk { message := "boom" }) :
        Except AnyhowError (List String)) = Except.ok ks ∧
      ListTrace exampleClient failSend none ks) ∨
    (∃ e, (Except.error (AnyhowError.sdk { message := "boom" }) :
        Except AnyhowError (List String)) = Except.error (AnyhowError.sdk e) ∧
      ListTraceErr exampleClient failSend none e) :=
  c3_list_keys_no_partial_success exampleClient failSend 1 _ rfl

/-- C9: the loop reads the truncation flag through `unwrap_or(false)`, so
a page with the flag absent is treated exactly like one with the flag
false: the loop stops there and returns the keys accumulated so far;
and whenever a traversal reaches a page whose flag is unset or false
(a `ListTrace` exists), some fuel makes `list_keys` finish. -/
theorem c9_absent_truncation_flag_terminates :
    (∀ (c : CloudFlareR2)
        (send : ListObjectsV2Request → Except SdkError ListObjectsV2Output)
        (tok : Option String) (out : ListObjectsV2Output)
        (acc : List String) (fuel : Nat),
        send { bucket := c.bucket_name, continuation_token := tok } = .ok out →
        (out.is_truncated = none ∨ out.is_truncated = some false) →
        c.list_keysLoop send (fuel + 1) tok acc =
          some (.ok (acc ++ pageKeys out))) ∧
    (∀ (c : CloudFlareR2)
        (send : ListObjectsV2Request → Except SdkError ListObjectsV2Output)
        (ks : List String),
        ListTrace c send none ks →
        ∃ fuel, c.list_keys send fuel = some (.ok ks)) := by
  constructor
  · intro c send tok out acc fuel hsend hflag
    have htr : out.is_truncated.getD false = false := by
      rcases hflag with h | h <;> simp [h]
    unfold CloudFlareR2.list_keysLoop
    rw [hsend]
    simp [htr]
  · intro c send ks h
    obtain ⟨fuel, hfuel⟩ := trace_list_keysLoop c send h []
    exact ⟨fuel, by simpa [CloudFlareR2.list_keys] using hfuel⟩

/-- C9 witness: with the flag absent the loop stops after one page and
returns its keys. -/
theorem c9_absent_truncation_flag_terminates_witness :
    exampleClient.list_keysLoop absentFlagSend 1 none [] =
      some (.ok ["a"]) := by
  simpa using
    c9_absent_truncation_flag_terminates.1 exampleClient absentFlagSend
      none _ [] 0 rfl (Or.inl rfl)

/-- C10: whenever `delete_object` succeeds its boolean result is `true`;
it never returns `false`. -/
theorem c10_delete_object_only_true (c : CloudFlareR2)
    (send : DeleteObjectRequest → Except SdkError Unit) (key : String)
    (b : Bool) (h : c.delete_object send key = Except.ok b) :
    b = true := by
  unfold CloudFlareR2.delete_object at h
  split at h
  next e heq => simp at h
  next u heq =>
    simp only [Except.ok.injEq] at h
    exact h.symm

/-- C10 witness: a concrete successful deletion returns exactly `true`. -/
theorem c10_delete_object_only_true_witness :
    (exampleClient.delete_object (fun _ => Except.ok ()) "k" =
      Except.ok true) ∧ true = true :=
  ⟨rfl, c10_delete_object_only_true exampleClient (fun _ => Except.ok ())
    "k" true rfl⟩

/-- C4 counterexample: the key ".pdf" ends in ".pdf", yet its request
carries the octet-stream content type, not a PDF one — a dotfile name
has no extension for `Path::extension`, so the MIME guess defaults. -/
theorem c4_content_type_counterexample :
    strEndsWith ".pdf" ".pdf" = true ∧
    (exampleClient.put_objectRequest ".pdf" []).content_type =
      "application/octet-stream" ∧
    (exampleClient.put_objectRequest ".pdf" []).content_type ≠
      "application/pdf" :=
  ⟨by decide, by decide, by decide⟩

/-- C4 (amended): the request's content type comes from the key's
file extension through the MIME lookup, defaulting to octet-stream when
the extension is absent or unknown; a key whose extension is pdf (the
dotfile ".pdf" has none) gets the PDF content type, and in particular
"report.pdf" gets PDF and "noext" gets octet-stream. -/
theorem c4_content_type_amended :
    (∀ (c : CloudFlareR2) (key : String) (body : List Nat),
        extensionOf key = none →
        (c.put_objectRequest key body).content_type =
          "application/octet-stream") ∧
    (∀ (c : CloudFlareR2) (key ext : String) (body : List Nat),
        extensionOf key = some ext → mimeFromExt ext = none →
        (c.put_objectRequest key body).content_type =
          "application/octet-stream") ∧
    (∀ (c : CloudFlareR2) (key : String) (body : List Nat),
        extensionOf key = some "pdf" →
        (c.put_objectRequest key body).content_type = "application/pdf") ∧
    (∀ (c : CloudFlareR2) (body : List Nat),
        (c.put_objectRequest "report.pdf" body).content_type =
          "application/pdf" ∧
        (c.put_objectRequest "noext" body).content_type =
          "application/octet-stream") := by
  refine ⟨?_, ?_, ?_, ?_⟩
  · intro c key body h
    simp [CloudFlareR2.put_objectRequest, mime_guess.from_path,
      first_or_octet_stream, h]
  · intro c key ext body h1 h2
    simp [CloudFlareR2.put_objectRequest, mime_guess.from_path,
      first_or_octet_stream, h1, h2]
  · intro c key body h
    have hpdf : mimeFromExt "pdf" = some "application/pdf" := rfl
    simp [CloudFlareR2.put_objectRequest, mime_guess.from_path,
      first_or_octet_stream, h, hpdf]
  · intro c body
    exact ⟨rfl, rfl⟩

/-- C4 witness: an unknown extension and a missing extension both give
octet-stream, and the pdf extension gives the PDF type, at concrete
keys — including a key with a trailing separator, whose file name keeps
its extension under Rust path normalization. -/
theorem c4_content_type_amended_witness :
    extensionOf "archive.xyz" = some "xyz" ∧ mimeFromExt "xyz" = none ∧
    (exampleClient.put_objectRequest "archive.xyz" []).content_type =
      "application/octet-stream" ∧
    extensionOf "report.pdf" = some "pdf" ∧
    (exampleClient.put_objectRequest "report.pdf" []).content_type =
      "application/pdf" ∧
    extensionOf "x.pdf/" = some "pdf" ∧
    (exampleClient.put_objectRequest "x.pdf/" []).content_type =
      "application/pdf" ∧
    extensionOf "noext" = none ∧
    (exampleClient.put_objectRequest "noext" []).content_type =
      "application/octet-stream" :=
  ⟨by decide, by decide,
   c4_content_type_amended.2.1 exampleClient "archive.xyz" "xyz" []
     (by decide) (by decide),
   by decide,
   c4_content_type_amended.2.2.1 exampleClient "report.pdf" [] (by decide),
   by decide,
   c4_content_type_amended.2.2.1 exampleClient "x.pdf/" [] (by decide),
   by decide,
   c4_content_type_amended.1 exampleClient "noext" [] (by decide)⟩

/-- C6: bucket operations map every failing response to their fixed
bucket-operation error message, while the object operations (put, get,
delete, list, download) propagate the failing request's SDK error
uniformly, without distinguishing not-found or permission-denied. -/
theorem c6_error_taxonomy :
    (∀ (c : CloudFlareR2) (send : CreateBucketRequest → Except SdkError Unit)
        (e : SdkError),
        send { bucket := c.bucket_name } = .error e →
        c.create_bucket send = .error (.msg "Failed to create bucket")) ∧
    (∀ (c : CloudFlareR2) (send : DeleteBucketRequest → Except SdkError Unit)
        (e : SdkError),
        send { bucket := c.bucket_name } = .error e →
        c.delete_bucket send = .error (.msg "Failed to delete bucket")) ∧
    (∀ (c : CloudFlareR2) (send : PutObjectRequest → Except SdkError Unit)
        (key : String) (body : List Nat) (e : SdkError),
        send (c.put_objectRequest key body) = .error e →
        c.put_object send key body = .error (.sdk e)) ∧
    (∀ (c : CloudFlareR2)
        (send : GetObjectRequest → Except SdkError GetObjectResponse)
        (key : String) (e : SdkError),
        send { bucket := c.bucket_name, key := key } = .error e →
        c.get_object send key = .error (.sdk e)) ∧
    (∀ (c : CloudFlareR2) (send : DeleteObjectRequest → Except SdkError Unit)
        (key : String) (e : SdkError),
        send { bucket := c.bucket_name, key := key } = .error e →
        c.delete_object send key = .error (.sdk e)) ∧
    (∀ (c : CloudFlareR2)
        (send : ListObjectsV2Request → Except SdkError ListObjectsV2Output)
        (fuel : Nat) (x : AnyhowError),
        c.list_keys send fuel = some (.error x) →
        ∃ e, x = AnyhowError.sdk e) ∧
    (∀ (c : CloudFlareR2)
        (send : GetObjectRequest → Except SdkError GetObjectResponse)
        (fs : FS) (key : String) (dir p : FsPath) (e : SdkError),
        fs.isDir dir = true → parentPath (joinPath dir key) = some p →
        fs.pathExists p = true →
        send { bucket := c.bucket_name, key := key } = .error e →
        c.download_file send fs key dir = .error (.sdk e)) := by
  refine ⟨?_, ?_, ?_, ?_, ?_, ?_, ?_⟩
  · intro c send e h; simp [CloudFlareR2.create_bucket, h]
  · intro c send e h; simp [CloudFlareR2.delete_bucket, h]
  · intro c send key body e h; simp [CloudFlareR2.put_object, h]
  · intro c send key e h; simp [CloudFlareR2.get_object, h]
  · intro c send key e h; simp [CloudFlareR2.delete_object, h]
  · intro c send fuel x h
    obtain ⟨e, hx, _⟩ := list_keysLoop_error_trace c send fuel none [] x h
    exact ⟨e, hx⟩
  · intro c send fs key dir p e hdir hpar hex hsend
    simp [CloudFlareR2.download_file, hdir, hpar, hex, hsend]

/-- C6 witness: on a concretely failing service, a bucket operation
reports the fixed message error and an object operation reports the
propagated SDK error. -/
theorem c6_error_taxonomy_witness :
    exampleClient.create_bucket (fun _ => Except.error { message := "denied" }) =
      Except.error (AnyhowError.msg "Failed to create bucket") ∧
    exampleClient.put_object (fun _ => Except.error { message := "denied" })
        "k" [] =
      Except.error (AnyhowError.sdk { message := "denied" }) :=
  ⟨c6_error_taxonomy.1 exampleClient _ { message := "denied" } rfl,
   c6_error_taxonomy.2.2.1 exampleClient _ "k" [] { message := "denied" } rfl⟩

/-- C5: `download_file` fails with the invalid-destination error when
the destination is not a directory, without issuing the object request
(the result does not depend on the service); it fails when the joined
path has no parent, when the parent directories cannot be created, and
when a chunk of the stream fails; and on success it returns the path of
`dir` joined with the key and has written the object's bytes — the same
bytes `get_object` returns — to the file at that path. -/
theorem c5_download_file_behaviour :
    (∀ (c : CloudFlareR2)
        (send send' : GetObjectRequest → Except SdkError GetObjectResponse)
        (fs : FS) (key : String) (dir : FsPath),
        fs.isDir dir = false →
        c.download_file send fs key dir = c.download_file send' fs key dir ∧
        c.download_file send fs key dir =
          .error (.msg ("Path " ++ pathToString dir ++ " is not a directory"))) ∧
    (∀ (c : CloudFlareR2)
        (send : GetObjectRequest → Except SdkError GetObjectResponse)
        (fs : FS) (key : String) (dir : FsPath),
        fs.isDir dir = true →
        parentPath (joinPath dir key) = none →
        c.download_file send fs key dir =
          .error (.msg ("Invalid parent dir for " ++
            pathToString (joinPath dir key)))) ∧
    (∀ (c : CloudFlareR2)
        (send : GetObjectRequest → Except SdkError GetObjectResponse)
        (fs : FS) (key : String) (dir p : FsPath) (e : AnyhowError),
        fs.isDir dir = true →
        parentPath (joinPath dir key) = some p →
        fs.pathExists p = false →
        fs.create_dir_all p = .error e →
        c.download_file send fs key dir = .error e) ∧
    (∀ (c : CloudFlareR2)
        (send : GetObjectRequest → Except SdkError GetObjectResponse)
        (fs : FS) (key : String) (dir p : FsPath)
        (resp : GetObjectResponse) (e : AnyhowError),
        fs.isDir dir = true →
        parentPath (joinPath dir key) = some p →
        fs.pathExists p = true →
        send { bucket := c.bucket_name, key := key } = .ok resp →
        fs.isDir (joinPath dir key) = false →
        collectBody resp.body = .error e →
        c.download_file send fs key dir = .error e) ∧
    (∀ (c : CloudFlareR2)
        (send : GetObjectRequest → Except SdkError GetObjectResponse)
        (fs : FS) (key : String) (dir : FsPath) (fs' : FS) (path : String),
        c.download_file send fs key dir = .ok (fs', path) →
        path = pathToString (joinPath dir key) ∧
        ∃ bytes, fs'.lookupFile (joinPath dir key) = some bytes ∧
          c.get_object send key = .ok bytes) := by
  refine ⟨?_, ?_, ?_, ?_, ?_⟩
  · intro c send send' fs key dir hdir
    constructor <;> simp [CloudFlareR2.download_file, hdir]
  · intro c send fs key dir hdir hpar
    simp [CloudFlareR2.download_file, hdir, hpar]
  · intro c send fs key dir p e hdir hpar hex hcd
    simp [CloudFlareR2.download_file, hdir, hpar, hex, hcd]
  · intro c send fs key dir p resp e hdir hpar hex hsend hfc hcb
    simp [CloudFlareR2.download_file, hdir, hpar, hex, hsend,
      FS.fileCreate, hfc, hcb]
  · intro c send fs key dir fs' path h
    unfold CloudFlareR2.download_file at h
    split at h
    · exact absurd h (by simp)
    · split at h
      · exact absurd h (by simp)
      next p hpar =>
        split at h
        next e hcd => exact absurd h (by simp)
        next fs1 hcd =>
          split at h
          next e hsend => exact absurd h (by simp)
          next resp hsend =>
            split at h
            next e hfc => exact absurd h (by simp)
            next fs2 hfc =>
              split at h
              next e hcb => exact absurd h (by simp)
              next bytes hcb =>
                simp only [Except.ok.injEq, Prod.mk.injEq] at h
                obtain ⟨hfs', hpath⟩ := h
                refine ⟨hpath.symm, bytes, ?_, ?_⟩
                · rw [← hfs']
                  simp [FS.writeFile, FS.lookupFile, List.find?]
                · simp [CloudFlareR2.get_object, hsend, hcb]

/-- C5 witness: on a concrete filesystem, downloading into a missing
directory fails with the invalid-destination message, and a successful
download writes the stream's bytes to the joined path and returns it. -/
theorem c5_download_file_behaviour_witness :
    exampleClient.download_file okStreamSend exampleFS "file.txt" ["nope"] =
      Except.error (AnyhowError.msg "Path nope is not a directory") ∧
    ("tmp/file.txt" = pathToString (joinPath ["tmp"] "file.txt") ∧
      ∃ bytes,
        FS.lookupFile
          { dirs := [[], ["tmp"]],
            files := [(["tmp", "file.txt"], [1, 2, 3])] }
          (joinPath ["tmp"] "file.txt") = some bytes ∧
        exampleClient.get_object okStreamSend "file.txt" =
          Except.ok bytes) :=
  ⟨(c5_download_file_behaviour.1 exampleClient okStreamSend okStreamSend
      exampleFS "file.txt" ["nope"] rfl).2,
   c5_download_file_behaviour.2.2.2.2 exampleClient okStreamSend exampleFS
     "file.txt" ["tmp"]
     { dirs := [[], ["tmp"]], files := [(["tmp", "file.txt"], [1, 2, 3])] }
     "tmp/file.txt" rfl⟩
